import Mathlib

/-!
# Mathter: the trait layer of `Mathter/DefinitionsUtil.hpp`

A shallow embedding of the compile-time trait layer (classification predicates,
property extractors, dimension arithmetic) and of the run-time helper
`AlmostEqual`.

Class templates with a `static constexpr` member `value` become functions on a
datatype of C++ types: the primary template is the catch-all equation, every
specialisation is one pattern.  Template arguments of type `int` are
integer constants; they are modelled by `Int`.  A constant expression whose
`int` arithmetic overflows is rejected by the compiler, it never wraps, so
the `Int` value is the value of every instantiation that compiles.
-/

namespace mathter

/-- The multiplication order flag of matrices. -/
inductive eMatrixOrder where
  | PRECEDE_VECTOR
  | FOLLOW_VECTOR
  deriving DecidableEq, Repr

/-- The memory layout flag of matrices. -/
inductive eMatrixLayout where
  | ROW_MAJOR
  | COLUMN_MAJOR
  deriving DecidableEq, Repr

/-- Reference qualification of a type: `T`, `T&` or `T&&`. -/
inductive RefKind where
  | none
  | lvalue
  | rvalue
  deriving DecidableEq, Repr

/-- The unqualified part of a type.  `Vector`, `Swizzle`, `Matrix`, `Submatrix`
and `Quaternion` are the instantiations of the five class templates declared at
the top of the header, with their template arguments; `other` is any
fundamental or class type that is none of them (`int`, `float`,
`std::complex<double>`, ...); `pointer`, `array` and `function` are there
because `std::decay` treats them specially. -/
inductive Shape (α : Type) where
  | other (name : String)
  | pointer (pointee : α)
  | array (element : α) (extent : Nat)
  | function (signature : String)
  | Vector (T : α) (Dim : Int) (Packed : Bool)
  | Swizzle (T : α) (Indices : List Int)
  | Matrix (T : α) (Rows Columns : Int) (Order : eMatrixOrder) (Layout : eMatrixLayout)
      (Packed : Bool)
  | Submatrix (MatrixT : α) (SRows SColumns : Int)
  | Quaternion (T : α) (Packed : Bool)

/-- A C++ type: an unqualified shape, its top-level `const` and `volatile`
qualifiers, and its reference kind.  `mk s true false .lvalue` is `const S&`.
(For `array` and `function` shapes the qualifiers live on the element and the
two flags are not used.) -/
inductive CppType where
  | mk (shape : Shape CppType) (isConst isVolatile : Bool) (ref : RefKind)

/-- The type with no qualifier at all. -/
def unqualified (s : Shape CppType) : CppType := .mk s false false .none

/-- `Vector<T, Dim, Packed>`. -/
def Vector (T : CppType) (Dim : Int) (Packed : Bool) : CppType :=
  unqualified (.Vector T Dim Packed)

/-- `Swizzle<T, Indices...>`. -/
def Swizzle (T : CppType) (Indices : List Int) : CppType :=
  unqualified (.Swizzle T Indices)

/-- `Matrix<T, Rows, Columns, Order, Layout, Packed>`. -/
def Matrix (T : CppType) (Rows Columns : Int) (Order : eMatrixOrder) (Layout : eMatrixLayout)
    (Packed : Bool) : CppType :=
  unqualified (.Matrix T Rows Columns Order Layout Packed)

/-- `Submatrix<MatrixT, SRows, SColumns>`. -/
def Submatrix (MatrixT : CppType) (SRows SColumns : Int) : CppType :=
  unqualified (.Submatrix MatrixT SRows SColumns)

/-- `Quaternion<T, Packed>`. -/
def Quaternion (T : CppType) (Packed : Bool) : CppType :=
  unqualified (.Quaternion T Packed)

/-- The fundamental type `float`. -/
def float : CppType := unqualified (.other "float")

/-- The fundamental type `double`. -/
def double : CppType := unqualified (.other "double")

/-- The fundamental type `int`. -/
def int : CppType := unqualified (.other "int")

/-- `constexpr int DYNAMIC = -1;` -/
def DYNAMIC : Int := -1

/-- `std::decay<T>::type`: the reference is removed; then an array type becomes
a pointer to its element, a function type a pointer to the function, and any
other type loses its top-level `const` and `volatile`. -/
def decay : CppType → CppType
  | .mk (.array element _) _ _ _ => unqualified (.pointer element)
  | .mk (.function signature) _ _ _ => unqualified (.pointer (unqualified (.function signature)))
  | .mk s _ _ _ => unqualified s

/-- `const T`.  A `const` applied to a reference type is ignored. -/
def add_const : CppType → CppType
  | .mk s _ v .none => .mk s true v .none
  | T => T

/-- `T&`.  By reference collapsing `T& &` and `T&& &` are `T&`. -/
def add_lvalue_reference : CppType → CppType
  | .mk s c v _ => .mk s c v .lvalue

/-- `T&&`.  By reference collapsing `T& &&` is `T&` and `T&& &&` is `T&&`. -/
def add_rvalue_reference : CppType → CppType
  | .mk s c v .none => .mk s c v .rvalue
  | T => T

namespace impl

/-- The members of the specialisation
`VectorPropertiesHelper<Vector<T_, Dim_, Packed_>>`. -/
structure VectorPropertiesMembers where
  Type_ : CppType
  Dim : Int
  Packed : Bool

/-- `VectorPropertiesHelper<VectorT>`: the primary template is an empty class
(`none`: no member); the specialisation for `Vector<T_, Dim_, Packed_>` has the
three members. -/
def VectorPropertiesHelper : CppType → Option VectorPropertiesMembers
  | .mk (.Vector T_ Dim_ Packed_) false false .none => some ⟨T_, Dim_, Packed_⟩
  | _ => none

/-- `VectorProperties<VectorT>` derives from
`VectorPropertiesHelper<typename std::decay<VectorT>::type>`. -/
def VectorProperties (VectorT : CppType) : Option VectorPropertiesMembers :=
  VectorPropertiesHelper (decay VectorT)

/-- The members of the specialisation
`MatrixPropertiesHelper<Matrix<T_, Rows_, Columns_, Order_, Layout_, Packed_>>`. -/
structure MatrixPropertiesMembers where
  Type_ : CppType
  Rows : Int
  Columns : Int
  Order : eMatrixOrder
  Layout : eMatrixLayout
  Packed : Bool

/-- `MatrixPropertiesHelper<MatrixT>`: empty primary template, one
specialisation for `Matrix<...>`. -/
def MatrixPropertiesHelper : CppType → Option MatrixPropertiesMembers
  | .mk (.Matrix T_ Rows_ Columns_ Order_ Layout_ Packed_) false false .none =>
      some ⟨T_, Rows_, Columns_, Order_, Layout_, Packed_⟩
  | _ => none

/-- `MatrixProperties<MatrixT>` derives from
`MatrixPropertiesHelper<typename std::decay<MatrixT>::type>`. -/
def MatrixProperties (MatrixT : CppType) : Option MatrixPropertiesMembers :=
  MatrixPropertiesHelper (decay MatrixT)

/-- `IsVector<Arg>::value`: `false` in the primary template, `true` in the
specialisation for `Vector<T, Dim, Packed>`. -/
def IsVector : CppType → Bool
  | .mk (.Vector _ _ _) false false .none => true
  | _ => false

/-- `NotVector<Arg>::value`. -/
def NotVector (Arg : CppType) : Bool := !IsVector Arg

/-- `IsSwizzle<Arg>::value`. -/
def IsSwizzle : CppType → Bool
  | .mk (.Swizzle _ _) false false .none => true
  | _ => false

/-- `NotSwizzle<Arg>::value`. -/
def NotSwizzle (Arg : CppType) : Bool := !IsSwizzle Arg

/-- `IsVectorOrSwizzle<Arg>::value`. -/
def IsVectorOrSwizzle (Arg : CppType) : Bool := IsVector Arg || IsSwizzle Arg

/-- `IsMatrix<T>::value`. -/
def IsMatrix : CppType → Bool
  | .mk (.Matrix _ _ _ _ _ _) false false .none => true
  | _ => false

/-- `NotMatrix<T>::value`. -/
def NotMatrix (T : CppType) : Bool := !IsMatrix T

/-- `IsSubmatrix<T>::value`. -/
def IsSubmatrix : CppType → Bool
  | .mk (.Submatrix _ _ _) false false .none => true
  | _ => false

/-- `NotSubmatrix<T>::value`. -/
def NotSubmatrix (T : CppType) : Bool := !IsSubmatrix T

/-- `IsQuaternion<Arg>::value`. -/
def IsQuaternion : CppType → Bool
  | .mk (.Quaternion _ _) false false .none => true
  | _ => false

/-- `NotQuaternion<Arg>::value`. -/
def NotQuaternion (Arg : CppType) : Bool := !IsQuaternion Arg

/-- `IsScalar<T>::value`. -/
def IsScalar (T : CppType) : Bool :=
  !IsMatrix T && !IsVector T && !IsSwizzle T && !IsQuaternion T && !IsSubmatrix T

/-- `DimensionOf<U, Along>::value`.  The primary template gives 1; the
specialisations `DimensionOf<Vector<T, Dim, Packed>, 0>` and
`DimensionOf<Swizzle<T, Indices...>>` (that is, with the default `Along = 0`)
give `Dim` and `sizeof...(Indices)`. -/
def DimensionOf (U : CppType) (Along : Int) : Int :=
  match U with
  | .mk (.Vector _ Dim _) false false .none => if Along = 0 then Dim else 1
  | .mk (.Swizzle _ Indices) false false .none => if Along = 0 then (Indices.length : Int) else 1
  | _ => 1

/-- `SumDimensions<Args...>::value`, on the list of the template arguments.
`DimensionOf<Head>` is used with its default `Along = 0`. -/
def SumDimensions : List CppType → Int
  | [] => 0
  | Head :: Rest =>
      if DimensionOf Head 0 > 0 then DimensionOf Head 0 + SumDimensions Rest else DYNAMIC

/-- C `round`: the nearest integer, halfway cases rounded away from zero. -/
def c_round (x : ℚ) : ℤ := if 0 ≤ x then ⌊x + 1 / 2⌋ else ⌈x - 1 / 2⌉

/-- `AlmostEqual(T d1, T d2, std::true_type)`, the overload for floating-point
`T`, on the rational values of its finite operands and in exact arithmetic
(the roundings of `/`, `*`, `log10` and `pow` are not modelled; the two guards
are comparisons only and need none).  The literals `1e-38` and `1e-4` are
taken at their decimal value.

`floor(std::log10(std::abs(d1)))` is `Int.log 10 |d1|` for `d1 ≠ 0`.  For
`d1 = 0` the source computes `log10(0) = -inf`, `scaler = pow(10, -inf) = 0`
and `d1 / scaler = NaN`, which compares unequal to everything: the result is
`false`. -/
def AlmostEqual_true_type (d1 d2 : ℚ) : Bool :=
  if d1 < 1 / 10 ^ 38 ∧ d2 < 1 / 10 ^ 38 then true
  else if (d1 = 0 ∧ d2 < 1 / 10 ^ 4) ∨ (d2 = 0 ∧ d1 < 1 / 10 ^ 4) then true
  else if d1 = 0 then false
  else
    let scaler : ℚ := (10 : ℚ) ^ Int.log 10 |d1|
    let d1 := d1 / scaler
    let d2 := d2 / scaler
    let d1 := d1 * 1000
    let d2 := d2 * 1000
    c_round d1 == c_round d2

/-- `AlmostEqual(T d1, T d2, std::false_type)`, the overload for int, complex
and custom types: `d1 == d2`, with the `==` of `T`. -/
def AlmostEqual_false_type {T : Type} [BEq T] (d1 d2 : T) : Bool := d1 == d2

/-- `AlmostEqual(T d1, T d2)`: tag dispatch on
`std::is_floating_point<T>::value`.  For a floating-point `T`, `toRat` is the
rational value of a finite operand. -/
def AlmostEqual {T : Type} [BEq T] (is_floating_point : Bool) (toRat : T → ℚ)
    (d1 d2 : T) : Bool :=
  if is_floating_point then AlmostEqual_true_type (toRat d1) (toRat d2)
  else AlmostEqual_false_type d1 d2

/-- `OppositeLayout<Layout>::value`. -/
def OppositeLayout (Layout : eMatrixLayout) : eMatrixLayout :=
  if Layout = eMatrixLayout.ROW_MAJOR then eMatrixLayout.COLUMN_MAJOR
  else eMatrixLayout.ROW_MAJOR

/-- `T sign(T arg)`, which returns `T(arg > T(0)) - (arg < T(0))`, for a signed
integer type `T`.  A `bool` converts to 0 or 1; the result is -1, 0 or 1, which
every signed integer type holds, so no overflow arises. -/
def sign (arg : Int) : Int :=
  (if arg > 0 then 1 else 0) - (if arg < 0 then 1 else 0)

/-- `T sign_nonzero(T arg)`, which returns `T(arg >= T(0)) - (arg < T(0))`, for
a signed integer type `T`. -/
def sign_nonzero (arg : Int) : Int :=
  (if arg ≥ 0 then 1 else 0) - (if arg < 0 then 1 else 0)

/-- `All<Cond, T...>::value`: `true` for the empty pack,
`Cond<Head>::value && All<Cond, Rest...>::value` otherwise. -/
def All (Cond : CppType → Bool) : List CppType → Bool
  | [] => true
  | Head :: Rest => Cond Head && All Cond Rest

/-- `Any<Cond, T...>::value`: `false` for the empty pack,
`Cond<Head>::value || Any<Cond, Rest...>::value` otherwise. -/
def Any (Cond : CppType → Bool) : List CppType → Bool
  | [] => false
  | Head :: Rest => Cond Head || Any Cond Rest

/-- `TypeList<T...>`: the pack of its elements. -/
structure TypeList where
  types : List CppType

/-- `ConcatTypeList<TypeList<T...>, TypeList<U...>>::type`, which is
`TypeList<T..., U...>`. -/
def ConcatTypeList (Tl1 Tl2 : TypeList) : TypeList := ⟨Tl1.types ++ Tl2.types⟩

/-- `std::conditional<B, X, Y>::type`: a selection between two types that are
both given, that is, both already formed. -/
def conditional (B : Bool) (X Y : TypeList) : TypeList := if B then X else Y

/-- `RepeatType<T, N>::type`, instantiated with `depth` nested instantiations
left (`none`: the instantiation does not complete).

The alias is `std::conditional<N <= 0, TypeList<>, typename
ConcatTypeList<TypeList<T>, typename RepeatType<T, N - 1>::type>::type>::type`.
The third template argument of `std::conditional` is a type, and naming
`typename RepeatType<T, N - 1>::type` instantiates `RepeatType<T, N - 1>`
whichever argument `std::conditional` then selects: the condition `N <= 0` does
not guard the recursion, and `RepeatType` has no specialisation that ends it
(unlike `All`, `Any` and `SumDimensions`).  With `N` an `int` the descent could
only end at the least `int`, where `N - 1` is no constant expression: an
error as well. -/
def RepeatType (T : CppType) : Int → Nat → Option TypeList
  | _, 0 => none
  | N, depth + 1 =>
    match RepeatType T (N - 1) depth with
    | none => none
    | some inner =>
        some (conditional (decide (N ≤ 0)) ⟨[]⟩ (ConcatTypeList ⟨[T]⟩ inner))

/-- The list that the specification gives for `RepeatType<T, N>::type`: `T`
repeated `N` times when `N > 0`, the empty list when `N <= 0`. -/
def RepeatType_documented (T : CppType) (N : Int) : TypeList :=
  if N > 0 then ⟨List.replicate N.toNat T⟩ else ⟨[]⟩

/-- The floating-point strategy as the specification words it: both magnitudes
below `1e-38`; or one value exactly zero and the magnitude of the other below
`1e-4`; or equal roundings of `1000 * a / s` and `1000 * b / s` with
`s = 10 ^ floor(log10(|a|))`. -/
def AlmostEqual_documented (a b : ℚ) : Bool :=
  decide ((|a| < 1 / 10 ^ 38 ∧ |b| < 1 / 10 ^ 38)
    ∨ ((a = 0 ∧ |b| < 1 / 10 ^ 4) ∨ (b = 0 ∧ |a| < 1 / 10 ^ 4))
    ∨ c_round (1000 * a / (10 : ℚ) ^ Int.log 10 |a|)
        = c_round (1000 * b / (10 : ℚ) ^ Int.log 10 |a|))

/-- A value of a floating-point type `T`: a finite value, given by the rational
number it stands for, an infinity with its sign, or a NaN. -/
inductive FVal where
  | fin (q : ℚ)
  | inf (negative : Bool)
  | nan

/-- The arithmetic of the floating-point type `T` that `AlmostEqual` is
instantiated with, as far as the function uses it:
* `lit_1e_38`, `lit_1e_4`: the values of the `double` literals `1e-38`, `1e-4`;
* `max_finite`: the largest finite value of `T`;
* `rnd`: the value of `T` that the exact result of `/` or `*` is rounded to
  (an infinity on overflow);
* `scaler`: the library expression
  `pow(T(10), floor(std::log10(std::abs(d1))))` on a finite `d1`. -/
structure FloatArith where
  lit_1e_38 : ℚ
  lit_1e_4 : ℚ
  max_finite : ℚ
  rnd : ℚ → FVal
  scaler : ℚ → FVal

/-- Rounding to the nearest integer, a tie to the even one. -/
def roundHalfEven (x : ℚ) : ℤ :=
  if x - ⌊x⌋ < 1 / 2 then ⌊x⌋
  else if 1 / 2 < x - ⌊x⌋ then ⌊x⌋ + 1
  else if ⌊x⌋ % 2 = 0 then ⌊x⌋ else ⌊x⌋ + 1

/-- IEEE 754 binary64 (`double`) rounding to nearest, ties to even: 53
significant bits, least exponent -1022 (below it the spacing stays `2^-1074`),
an infinity from `2^1024` on. -/
def binary64_rnd (q : ℚ) : FVal :=
  if q = 0 then .fin 0
  else
    let e : ℤ := max (Int.log 2 |q|) (-1022)
    let r : ℚ := (roundHalfEven (q / (2 : ℚ) ^ (e - 52)) : ℚ) * (2 : ℚ) ^ (e - 52)
    if (2 : ℚ) ^ (1024 : ℤ) ≤ |r| then .inf (decide (q < 0)) else .fin r

/-- The arithmetic of `double`.  The two literals are the `double` values
nearest to `1e-38` and `1e-4`.  `log10` and `pow` are library functions whose
accuracy the language does not fix; here the floor of the logarithm is exact
and the power is rounded once. -/
def binary64 : FloatArith where
  lit_1e_38 := 7662477704329444 / 2 ^ 179
  lit_1e_4 := 7378697629483821 / 2 ^ 66
  max_finite := 9007199254740991 * 2 ^ 971
  rnd := binary64_rnd
  scaler := fun d => if d = 0 then .fin 0 else binary64_rnd ((10 : ℚ) ^ Int.log 10 |d|)

/-! ## Helper lemmas -/

theorem c_round_intCast (n : ℤ) : c_round (n : ℚ) = n := by
  unfold c_round
  split_ifs with h
  · rw [Int.floor_eq_iff]
    constructor <;> linarith
  · rw [Int.ceil_eq_iff]
    constructor <;> linarith

theorem DimensionOf_of_not_vector_or_swizzle (X : CppType) (hV : IsVector X = false)
    (hS : IsSwizzle X = false) : DimensionOf X 0 = 1 := by
  rcases X with ⟨s, c, v, r⟩
  cases s <;> cases c <;> cases v <;> cases r <;>
    simp_all [IsVector, IsSwizzle, DimensionOf]

theorem IsScalar_not_vector_or_swizzle (X : CppType) (h : IsScalar X = true) :
    IsVector X = false ∧ IsSwizzle X = false := by
  unfold IsScalar at h
  cases hv : IsVector X <;> cases hs : IsSwizzle X <;> simp_all

theorem Int_log_ratCast (q : ℚ) (hq : 0 < q) : Int.log 10 ((q : ℚ) : ℝ) = Int.log 10 q := by
  have hqR : (0 : ℝ) < (q : ℝ) := by exact_mod_cast hq
  have h10 : 1 < 10 := by norm_num
  apply le_antisymm
  · rw [← Int.zpow_le_iff_le_log h10 hq]
    have h : (((10 : ℚ) ^ Int.log 10 (q : ℝ) : ℚ) : ℝ) ≤ (q : ℝ) := by
      push_cast
      exact Int.zpow_log_le_self h10 hqR
    exact Rat.cast_le.mp h
  · rw [← Int.zpow_le_iff_le_log h10 hqR]
    have h : (((10 : ℚ) ^ Int.log 10 q : ℚ) : ℝ) ≤ (q : ℝ) :=
      Rat.cast_le.mpr (Int.zpow_log_le_self h10 hq)
    push_cast at h
    exact h

/-- The exponent `Int.log 10 |d1|` used by `AlmostEqual_true_type` is
`floor(log10(abs(d1)))` of the source, for every nonzero `d1`. -/
theorem floor_log10_abs (d1 : ℚ) (h : d1 ≠ 0) :
    ⌊Real.logb 10 |(d1 : ℝ)|⌋ = Int.log 10 |d1| := by
  have h1 : ⌊Real.logb ((10 : ℕ) : ℝ) |(d1 : ℝ)|⌋ = Int.log 10 |(d1 : ℝ)| :=
    Real.floor_logb_natCast (abs_nonneg _)
  have h2 : |(d1 : ℝ)| = ((|d1| : ℚ) : ℝ) := by push_cast; rfl
  rw [h2, Int_log_ratCast _ (abs_pos.mpr h)] at h1
  rw [h2]
  exact_mod_cast h1

theorem AlmostEqual_true_type_self (x : ℚ) : AlmostEqual_true_type x x = true := by
  unfold AlmostEqual_true_type
  by_cases h : x < 1 / 10 ^ 38
  · rw [if_pos ⟨h, h⟩]
  · have hx : x ≠ 0 := by
      intro h0
      apply h
      rw [h0]
      positivity
    rw [if_neg (fun hh => h hh.1), if_neg, if_neg hx]
    · simp
    · rintro (⟨h0, -⟩ | ⟨h0, -⟩) <;> exact hx h0

/-! ## Entity classification -/

/-- C1: for every type `X` exactly one of `IsVector<X>`, `IsSwizzle<X>`,
`IsMatrix<X>`, `IsSubmatrix<X>`, `IsQuaternion<X>`, `IsScalar<X>` is true, and
`IsScalar<X>` is true if and only if none of the five composite predicates
is. -/
theorem classification_exactly_one (X : CppType) :
    [IsVector X, IsSwizzle X, IsMatrix X, IsSubmatrix X, IsQuaternion X, IsScalar X].count true = 1
    ∧ (IsScalar X = true ↔
        (IsVector X = false ∧ IsSwizzle X = false ∧ IsMatrix X = false ∧ IsSubmatrix X = false
          ∧ IsQuaternion X = false)) := by
  rcases X with ⟨s, c, v, r⟩
  cases s <;> cases c <;> cases v <;> cases r <;>
    simp [IsVector, IsSwizzle, IsMatrix, IsSubmatrix, IsQuaternion, IsScalar]

/-! ## Dimension arithmetic -/

/-- C2, the code at the failing input: in
`SumDimensions<Vector<float, 3, false>, Vector<float, DYNAMIC, false>>` the
second argument has a non-positive dimension, yet the value is
`3 + DYNAMIC = 2`, not `DYNAMIC`: the sentinel of the tail is added to the
dimension of the head instead of being propagated. -/
theorem SumDimensions_sentinel_not_propagated :
    DimensionOf (Vector float DYNAMIC false) 0 ≤ 0
    ∧ SumDimensions [Vector float 3 false, Vector float DYNAMIC false] = 2
    ∧ SumDimensions [Vector float 3 false, Vector float DYNAMIC false] ≠ DYNAMIC := by
  decide

/-- C3: `SumDimensions<>` is 0, and for every argument list in which each
argument has a positive `DimensionOf`, `SumDimensions` is the arithmetic sum of
`DimensionOf` over the arguments. -/
theorem SumDimensions_eq_sum (Args : List CppType) (h : ∀ A ∈ Args, 0 < DimensionOf A 0) :
    SumDimensions [] = 0
    ∧ SumDimensions Args = (Args.map (fun A => DimensionOf A 0)).sum := by
  refine ⟨rfl, ?_⟩
  induction Args with
  | nil => rfl
  | cons Head Rest ih =>
    have hHead : DimensionOf Head 0 > 0 := h Head (List.mem_cons_self _ _)
    have hRest : ∀ A ∈ Rest, 0 < DimensionOf A 0 := fun A hA => h A (List.mem_cons_of_mem _ hA)
    simp only [SumDimensions, if_pos hHead, List.map_cons, List.sum_cons, ih hRest]

/-- C3 at `SumDimensions<Vector<float, 3, false>, float, Vector<float, 2, false>>`,
which is 6. -/
theorem SumDimensions_eq_sum_witness :
    (∀ A ∈ [Vector float 3 false, float, Vector float 2 false], 0 < DimensionOf A 0)
    ∧ SumDimensions [] = 0
    ∧ SumDimensions [Vector float 3 false, float, Vector float 2 false] = 6 := by
  have h : ∀ A ∈ [Vector float 3 false, float, Vector float 2 false], 0 < DimensionOf A 0 := by
    decide
  exact ⟨h, (SumDimensions_eq_sum _ h).1, (SumDimensions_eq_sum _ h).2.trans (by decide)⟩

/-- C4: with the default `Along = 0`, `DimensionOf<X>` is 1 for every type `X`
that is neither a `Vector` nor a `Swizzle`, is `N` for `Vector<T, N, Packed>`,
and is the number of indices for `Swizzle<T, Indices...>`. -/
theorem DimensionOf_default (X T : CppType) (N : Int) (Packed : Bool) (Indices : List Int)
    (hV : IsVector X = false) (hS : IsSwizzle X = false) :
    DimensionOf X 0 = 1
    ∧ DimensionOf (Vector T N Packed) 0 = N
    ∧ DimensionOf (Swizzle T Indices) 0 = (Indices.length : Int) :=
  ⟨DimensionOf_of_not_vector_or_swizzle X hV hS, rfl, rfl⟩

/-- C4 at `X = const Matrix<double, 3, 3, ...>&`, `Vector<float, 4, true>` and
`Swizzle<float, 2, 0, 1>`. -/
theorem DimensionOf_default_witness :
    DimensionOf (add_lvalue_reference (add_const
        (Matrix double 3 3 .PRECEDE_VECTOR .ROW_MAJOR false))) 0 = 1
    ∧ DimensionOf (Vector float 4 true) 0 = 4
    ∧ DimensionOf (Swizzle float [2, 0, 1]) 0 = ((3 : Nat) : Int) :=
  DimensionOf_default
    (add_lvalue_reference (add_const (Matrix double 3 3 .PRECEDE_VECTOR .ROW_MAJOR false)))
    float 4 true [2, 0, 1] (by decide) (by decide)

/-- C5 as stated fails: `Vector<float, 0, false>` has a dimension other than
`DYNAMIC` and `Swizzle<float>` (no index) is a `Swizzle` type, and `DimensionOf`
is 0 on both. -/
theorem DimensionOf_ge_one_fails :
    IsVector (Vector float 0 false) = true ∧ (0 : Int) ≠ DYNAMIC
    ∧ ¬ (1 ≤ DimensionOf (Vector float 0 false) 0)
    ∧ IsSwizzle (Swizzle float []) = true
    ∧ ¬ (1 ≤ DimensionOf (Swizzle float []) 0) := by
  decide

/-- C5, amended: `DimensionOf` of `Vector<T, Dim, Packed>` is at least 1 exactly
when `Dim` is positive, `DimensionOf` of `Swizzle<T, Indices...>` is at least 1
exactly when there is at least one index, and `DimensionOf` is exactly 1 on
every scalar type. -/
theorem DimensionOf_ge_one_iff (X T : CppType) (Dim : Int) (Packed : Bool) (Indices : List Int)
    (hX : IsScalar X = true) :
    (1 ≤ DimensionOf (Vector T Dim Packed) 0 ↔ 0 < Dim)
    ∧ (1 ≤ DimensionOf (Swizzle T Indices) 0 ↔ Indices ≠ [])
    ∧ DimensionOf X 0 = 1 := by
  refine ⟨?_, ?_, ?_⟩
  · show 1 ≤ Dim ↔ 0 < Dim
    omega
  · show 1 ≤ (Indices.length : Int) ↔ Indices ≠ []
    cases Indices with
    | nil => simp
    | cons i is => simp
  · exact DimensionOf_of_not_vector_or_swizzle X (IsScalar_not_vector_or_swizzle X hX).1
      (IsScalar_not_vector_or_swizzle X hX).2

/-- C5, amended, at `int`, `Vector<float, 3, false>` and `Swizzle<float, 0, 1>`. -/
theorem DimensionOf_ge_one_iff_witness :
    IsScalar int = true
    ∧ (1 ≤ DimensionOf (Vector float 3 false) 0 ↔ (0 : Int) < 3)
    ∧ (1 ≤ DimensionOf (Swizzle float [0, 1]) 0 ↔ [(0 : Int), 1] ≠ [])
    ∧ DimensionOf int 0 = 1 :=
  ⟨by decide, DimensionOf_ge_one_iff int float 3 false [0, 1] (by decide)⟩

/-! ## Classification and property extraction on qualified types -/

/-- C6 as stated fails: `IsVector` is true on `Vector<float, 3, false>` and
false on `const Vector<float, 3, false>` and on `Vector<float, 3, false>&`,
and `IsScalar` is false on the first and true on the other two. -/
theorem classification_of_qualified_differs :
    IsVector (Vector float 3 false) = true
    ∧ IsVector (add_const (Vector float 3 false)) = false
    ∧ IsVector (add_lvalue_reference (Vector float 3 false)) = false
    ∧ IsScalar (Vector float 3 false) = false
    ∧ IsScalar (add_const (Vector float 3 false)) = true
    ∧ IsScalar (add_lvalue_reference (Vector float 3 false)) = true := by
  decide

/-- C6, amended: on a type that carries a `const`, a `volatile` or a reference
the five composite predicates are false and `IsScalar` is true, whatever the
unqualified type is; and each of the six predicates returns on the
`std::decay` of a qualified form the value it returns on the unqualified
type. -/
theorem classification_of_qualified (s : Shape CppType) (c v : Bool) (r : RefKind)
    (hq : c = true ∨ v = true ∨ r ≠ RefKind.none) :
    (IsVector (.mk s c v r) = false ∧ IsSwizzle (.mk s c v r) = false
      ∧ IsMatrix (.mk s c v r) = false ∧ IsSubmatrix (.mk s c v r) = false
      ∧ IsQuaternion (.mk s c v r) = false ∧ IsScalar (.mk s c v r) = true)
    ∧ (IsVector (decay (.mk s c v r)) = IsVector (unqualified s)
      ∧ IsSwizzle (decay (.mk s c v r)) = IsSwizzle (unqualified s)
      ∧ IsMatrix (decay (.mk s c v r)) = IsMatrix (unqualified s)
      ∧ IsSubmatrix (decay (.mk s c v r)) = IsSubmatrix (unqualified s)
      ∧ IsQuaternion (decay (.mk s c v r)) = IsQuaternion (unqualified s)
      ∧ IsScalar (decay (.mk s c v r)) = IsScalar (unqualified s)) := by
  cases s <;> cases c <;> cases v <;> cases r <;>
    simp_all [IsVector, IsSwizzle, IsMatrix, IsSubmatrix, IsQuaternion, IsScalar, decay,
      unqualified]

/-- C6, amended, at `const Vector<float, 3, false>&`. -/
theorem classification_of_qualified_witness :
    (true = true ∨ false = true ∨ RefKind.lvalue ≠ RefKind.none)
    ∧ IsVector (.mk (.Vector float 3 false) true false .lvalue) = false
    ∧ IsScalar (.mk (.Vector float 3 false) true false .lvalue) = true
    ∧ IsVector (decay (.mk (.Vector float 3 false) true false .lvalue))
        = IsVector (unqualified (.Vector float 3 false)) :=
  have h := classification_of_qualified (.Vector float 3 false) true false .lvalue (Or.inl rfl)
  ⟨Or.inl rfl, h.1.1, h.1.2.2.2.2.2, h.2.1⟩

/-- C7: `VectorProperties<Vector<T, Dim, Packed>>` has exactly the members
`Type = T`, `Dim`, `Packed`, and
`MatrixProperties<Matrix<T, Rows, Columns, Order, Layout, Packed>>` has exactly
the six members of that tuple. -/
theorem properties_round_trip (T : CppType) (Dim : Int) (Packed : Bool) (U : CppType)
    (Rows Columns : Int) (Order : eMatrixOrder) (Layout : eMatrixLayout) (MPacked : Bool) :
    VectorProperties (Vector T Dim Packed) = some ⟨T, Dim, Packed⟩
    ∧ MatrixProperties (Matrix U Rows Columns Order Layout MPacked)
        = some ⟨U, Rows, Columns, Order, Layout, MPacked⟩ :=
  ⟨rfl, rfl⟩

/-- C8: `VectorProperties<V>` has members if and only if `std::decay` of `V`
is a `Vector` type and has none otherwise, `MatrixProperties<M>` has members if
and only if `std::decay` of `M` is a `Matrix` type and has none otherwise, and
both give on a qualified type what they give on the unqualified type. -/
theorem properties_exposed_iff (V M : CppType) (s : Shape CppType) (c v : Bool) (r : RefKind) :
    ((VectorProperties V).isSome = true ↔ IsVector (decay V) = true)
    ∧ (VectorProperties V = none ↔ IsVector (decay V) = false)
    ∧ ((MatrixProperties M).isSome = true ↔ IsMatrix (decay M) = true)
    ∧ (MatrixProperties M = none ↔ IsMatrix (decay M) = false)
    ∧ VectorProperties (.mk s c v r) = VectorProperties (unqualified s)
    ∧ MatrixProperties (.mk s c v r) = MatrixProperties (unqualified s) := by
  refine ⟨?_, ?_, ?_, ?_, ?_, ?_⟩
  · rcases V with ⟨s, c, v, r⟩
    cases s <;> simp [VectorProperties, VectorPropertiesHelper, IsVector, decay, unqualified]
  · rcases V with ⟨s, c, v, r⟩
    cases s <;> simp [VectorProperties, VectorPropertiesHelper, IsVector, decay, unqualified]
  · rcases M with ⟨s, c, v, r⟩
    cases s <;> simp [MatrixProperties, MatrixPropertiesHelper, IsMatrix, decay, unqualified]
  · rcases M with ⟨s, c, v, r⟩
    cases s <;> simp [MatrixProperties, MatrixPropertiesHelper, IsMatrix, decay, unqualified]
  · cases s <;> rfl
  · cases s <;> rfl

/-! ## Approximate equality -/

/-- C9, the code at the failing input: `AlmostEqual(-1.0, -5.0)` returns true,
because the first guard compares the signed operands with `1e-38`, while none
of the documented conditions holds there. -/
theorem AlmostEqual_negative_operands :
    AlmostEqual_true_type (-1) (-5) = true ∧ AlmostEqual_documented (-1) (-5) = false := by
  have h1 : c_round (-1000 : ℚ) = -1000 := by exact_mod_cast c_round_intCast (-1000)
  have h5 : c_round (-5000 : ℚ) = -5000 := by exact_mod_cast c_round_intCast (-5000)
  constructor
  · unfold AlmostEqual_true_type
    norm_num
  · unfold AlmostEqual_documented
    norm_num [Int.log_one_right, h1, h5]

/-- C10: `AlmostEqual(x, x)` returns true for every finite floating-point `x`,
zero, positive or negative: the two-argument overload dispatches to the
floating-point overload, which returns true on equal operands. -/
theorem AlmostEqual_refl (x : ℚ) :
    AlmostEqual true id x x = true ∧ AlmostEqual_true_type x x = true :=
  ⟨AlmostEqual_true_type_self x, AlmostEqual_true_type_self x⟩

/-! ## Helper lemmas for the approximate equality -/

theorem Int_log_eq_of_bounds (r : ℚ) (k : ℤ) (h1 : (10 : ℚ) ^ k ≤ r)
    (h2 : r < (10 : ℚ) ^ (k + 1)) : Int.log 10 r = k := by
  have h10 : 1 < 10 := by norm_num
  have hr : 0 < r := lt_of_lt_of_le (by positivity) h1
  apply le_antisymm
  · have h : Int.log 10 r < k + 1 := by
      rw [← Int.lt_zpow_iff_log_lt h10 hr]
      exact_mod_cast h2
    omega
  · rw [← Int.zpow_le_iff_le_log h10 hr]
    exact_mod_cast h1

theorem c_round_bounds (x : ℚ) :
    (x - 1 / 2 ≤ c_round x ∧ (c_round x : ℚ) ≤ x + 1 / 2)
    ∧ (0 ≤ x → x - 1 / 2 < c_round x) ∧ (x < 0 → (c_round x : ℚ) < x + 1 / 2) := by
  unfold c_round
  split_ifs with h
  · have h1 := Int.floor_le (x + 1 / 2)
    have h2 := Int.lt_floor_add_one (x + 1 / 2)
    refine ⟨⟨by linarith, h1⟩, fun _ => by linarith, fun h0 => absurd h (not_le.mpr h0)⟩
  · have h1 := Int.le_ceil (x - 1 / 2)
    have h2 := Int.ceil_lt_add_one (x - 1 / 2)
    refine ⟨⟨h1, by linarith⟩, fun h0 => absurd h0 h, fun _ => by linarith⟩

theorem c_round_eq_abs_sub_lt (x y : ℚ) (h : c_round x = c_round y) : |x - y| < 1 := by
  obtain ⟨⟨hx1, hx2⟩, hx3, hx4⟩ := c_round_bounds x
  obtain ⟨⟨hy1, hy2⟩, hy3, hy4⟩ := c_round_bounds y
  rw [h] at hx1 hx2 hx3 hx4
  rw [abs_lt]
  rcases lt_or_le x 0 with hx | hx <;> rcases lt_or_le y 0 with hy | hy
  · have := hx4 hx
    have := hy4 hy
    constructor <;> linarith
  · have := hx4 hx
    have := hy3 hy
    constructor <;> linarith
  · have := hx3 hx
    have := hy4 hy
    constructor <;> linarith
  · have := hx3 hx
    have := hy3 hy
    constructor <;> linarith

theorem AlmostEqual_one_near : AlmostEqual_true_type 1 (9996 / 10000) = true := by
  have hr : c_round (4998 / 5 : ℚ) = 1000 := by
    unfold c_round
    rw [if_pos (by norm_num), Int.floor_eq_iff]
    constructor <;> norm_num
  have h1 : c_round (1000 : ℚ) = 1000 := by exact_mod_cast c_round_intCast 1000
  have e1 : (1 : ℚ) / (10 : ℚ) ^ (0 : ℤ) * 1000 = 1000 := by norm_num
  have e2 : (9996 / 10000 : ℚ) / (10 : ℚ) ^ (0 : ℤ) * 1000 = 4998 / 5 := by norm_num
  unfold AlmostEqual_true_type
  rw [if_neg (by norm_num), if_neg (by norm_num), if_neg (by norm_num)]
  simp only [abs_one, Int.log_one_right, e1, e2, h1, hr]
  decide

theorem AlmostEqual_near_one : AlmostEqual_true_type (9996 / 10000) 1 = false := by
  have hlog : Int.log 10 |(9996 / 10000 : ℚ)| = -1 := by
    apply Int_log_eq_of_bounds
    · rw [abs_of_pos (by norm_num)]; norm_num
    · rw [abs_of_pos (by norm_num)]; norm_num
  have h1 : c_round (9996 : ℚ) = 9996 := by exact_mod_cast c_round_intCast 9996
  have h2 : c_round (10000 : ℚ) = 10000 := by exact_mod_cast c_round_intCast 10000
  have e1 : (9996 / 10000 : ℚ) / (10 : ℚ) ^ (-1 : ℤ) * 1000 = 9996 := by norm_num
  have e2 : (1 : ℚ) / (10 : ℚ) ^ (-1 : ℤ) * 1000 = 10000 := by norm_num
  unfold AlmostEqual_true_type
  rw [if_neg (by norm_num), if_neg (by norm_num), if_neg (by norm_num)]
  simp only [hlog, e1, e2, h1, h2]
  decide

/-- In exact arithmetic a true result bounds the distance by the scale of the
first operand over 1000.  The rounded arithmetic of `T` does not keep this
bound, see `AlmostEqual_true_type_rounded`. -/
theorem AlmostEqual_true_type_close (a b : ℚ) (ha : 1 / 10 ^ 38 ≤ a) (hb : b ≠ 0)
    (h : AlmostEqual_true_type a b = true) :
    |a - b| < (10 : ℚ) ^ Int.log 10 |a| / 1000 := by
  have ha0 : 0 < a := lt_of_lt_of_le (by positivity) ha
  have hs : (0 : ℚ) < (10 : ℚ) ^ Int.log 10 |a| := by positivity
  unfold AlmostEqual_true_type at h
  rw [if_neg (fun hh => absurd hh.1 (not_lt.mpr ha)), if_neg, if_neg ha0.ne.symm] at h
  · have hr := c_round_eq_abs_sub_lt _ _ (of_decide_eq_true h)
    have e : a / (10 : ℚ) ^ Int.log 10 |a| * 1000 - b / (10 : ℚ) ^ Int.log 10 |a| * 1000
        = (a - b) * (1000 / (10 : ℚ) ^ Int.log 10 |a|) := by
      field_simp
      ring
    rw [e, abs_mul, abs_of_pos (div_pos (by norm_num) hs)] at hr
    have h3 := mul_lt_mul_of_pos_right hr hs
    have e3 : |a - b| * (1000 / (10 : ℚ) ^ Int.log 10 |a|) * (10 : ℚ) ^ Int.log 10 |a|
        = |a - b| * 1000 := by
      field_simp
    rw [e3, one_mul] at h3
    rw [lt_div_iff₀ (by norm_num : (0 : ℚ) < 1000)]
    exact h3
  · rintro (⟨h0, -⟩ | ⟨h0, -⟩)
    · exact ha0.ne.symm h0
    · exact hb h0

/-- C11: the floating-point `AlmostEqual` is not symmetric:
`AlmostEqual(1.0, 0.9996)` is true (scale 1, both operands round to 1000) and
`AlmostEqual(0.9996, 1.0)` is false (scale 0.1, 9996 against 10000). -/
theorem AlmostEqual_asymmetric :
    |(1 : ℚ)| ≠ |(9996 / 10000 : ℚ)|
    ∧ AlmostEqual_true_type 1 (9996 / 10000) = true
    ∧ AlmostEqual_true_type (9996 / 10000) 1 = false
    ∧ ∃ a b : ℚ, |a| ≠ |b| ∧ AlmostEqual true id a b ≠ AlmostEqual true id b a := by
  have hne : |(1 : ℚ)| ≠ |(9996 / 10000 : ℚ)| := by
    rw [abs_one, abs_of_pos (by norm_num)]
    norm_num
  refine ⟨hne, AlmostEqual_one_near, AlmostEqual_near_one, 1, 9996 / 10000, hne, ?_⟩
  show AlmostEqual_true_type 1 (9996 / 10000) ≠ AlmostEqual_true_type (9996 / 10000) 1
  rw [AlmostEqual_one_near, AlmostEqual_near_one]
  decide

/-- C12: for a type `T` that is not floating-point, the two-argument
`AlmostEqual(a, b)` takes the exact overload and returns `a == b`; on integers
it is true exactly when the two are equal. -/
theorem AlmostEqual_exact {T : Type} [BEq T] (toRat : T → ℚ) (a b : T) (m n : Int) :
    AlmostEqual false toRat a b = AlmostEqual_false_type a b
    ∧ AlmostEqual false toRat a b = (a == b)
    ∧ (AlmostEqual false (fun k : Int => (k : ℚ)) m n = true ↔ m = n) := by
  refine ⟨rfl, rfl, ?_⟩
  show (m == n) = true ↔ m = n
  exact beq_iff_eq

/-! ## Approximate equality in the rounded arithmetic of `T` -/

theorem binary64_lit_1e_4 : binary64.lit_1e_4 = 7378697629483821 / 2 ^ 66 := rfl

theorem RepeatType_eq_none (T : CppType) (depth : Nat) :
    ∀ N : Int, RepeatType T N depth = none := by
  induction depth with
  | zero => intro N; rfl
  | succ d ih =>
    intro N
    simp only [RepeatType, ih (N - 1)]

/-- C13: `All<Cond, Ts...>` is true iff `Cond` holds for every element of `Ts`
(true for the empty list), and `Any<Cond, Ts...>` is true iff `Cond` holds for
at least one element of `Ts` (false for the empty list). -/
theorem All_Any_iff (Cond : CppType → Bool) (Ts : List CppType) :
    (All Cond Ts = true ↔ ∀ T ∈ Ts, Cond T = true)
    ∧ All Cond [] = true
    ∧ (Any Cond Ts = true ↔ ∃ T ∈ Ts, Cond T = true)
    ∧ Any Cond [] = false := by
  refine ⟨?_, rfl, ?_, rfl⟩
  · induction Ts with
    | nil => simp [All]
    | cons Head Rest ih => simp [All, ih]
  · induction Ts with
    | nil => simp [Any]
    | cons Head Rest ih => simp [Any, ih]

/-- C14, the code at the failing input: `RepeatType<float, 2>::type` is never
obtained, whatever the instantiation depth allowed, while the specification
gives `TypeList<float, float>` for it. -/
theorem RepeatType_two_not_instantiated (depth : Nat) :
    RepeatType float 2 depth = none
    ∧ (RepeatType_documented float 2).types = [float, float] :=
  ⟨RepeatType_eq_none float depth 2, rfl⟩

/-- C15, the code on every input: the instantiation of `RepeatType<T, N>::type`
completes for no `T`, no `N` (not even `N <= 0`) and no instantiation depth:
each `RepeatType<T, N>` instantiates `RepeatType<T, N - 1>`. -/
theorem RepeatType_never_completes (T : CppType) (N : Int) (depth : Nat) :
    RepeatType T N depth = none ∧ RepeatType T 0 depth = none :=
  ⟨RepeatType_eq_none T depth N, RepeatType_eq_none T depth 0⟩

/-- C16: `OppositeLayout` maps `ROW_MAJOR` to `COLUMN_MAJOR` and `COLUMN_MAJOR`
to `ROW_MAJOR`; it is an involution without fixed point. -/
theorem OppositeLayout_involution (L : eMatrixLayout) :
    OppositeLayout eMatrixLayout.ROW_MAJOR = eMatrixLayout.COLUMN_MAJOR
    ∧ OppositeLayout eMatrixLayout.COLUMN_MAJOR = eMatrixLayout.ROW_MAJOR
    ∧ OppositeLayout (OppositeLayout L) = L
    ∧ OppositeLayout L ≠ L := by
  cases L <;> decide

/-- C18: for a list made of a prefix `P` of positive dimensions, an argument
`X` of non-positive dimension and any further arguments `Rest`,
`SumDimensions` is the sum of the dimensions of `P` plus `DYNAMIC`, that is the
sum minus 1, whatever `Rest` is; it is `DYNAMIC` exactly when `P` is empty. -/
theorem SumDimensions_short_circuit (P : List CppType) (X : CppType) (Rest : List CppType)
    (hP : ∀ A ∈ P, 0 < DimensionOf A 0) (hX : DimensionOf X 0 ≤ 0) :
    SumDimensions (P ++ X :: Rest) = (P.map (fun A => DimensionOf A 0)).sum + DYNAMIC
    ∧ SumDimensions (P ++ X :: Rest) = (P.map (fun A => DimensionOf A 0)).sum - 1
    ∧ (SumDimensions (P ++ X :: Rest) = DYNAMIC ↔ P = []) := by
  have hsum : SumDimensions (P ++ X :: Rest)
      = (P.map (fun A => DimensionOf A 0)).sum + DYNAMIC := by
    induction P with
    | nil =>
      simp only [List.nil_append, SumDimensions, if_neg (not_lt.mpr hX), List.map_nil,
        List.sum_nil, zero_add]
    | cons Head Tail ih =>
      have hHead : DimensionOf Head 0 > 0 := hP Head (List.mem_cons_self _ _)
      have hTail : ∀ A ∈ Tail, 0 < DimensionOf A 0 :=
        fun A hA => hP A (List.mem_cons_of_mem _ hA)
      have hstep : SumDimensions (Head :: Tail ++ X :: Rest)
          = DimensionOf Head 0 + SumDimensions (Tail ++ X :: Rest) := by
        show (if DimensionOf Head 0 > 0 then
          DimensionOf Head 0 + SumDimensions (Tail ++ X :: Rest) else DYNAMIC) = _
        rw [if_pos hHead]
      rw [hstep, ih hTail, List.map_cons, List.sum_cons, add_assoc]
  have hnonneg : ∀ Q : List CppType, (∀ A ∈ Q, 0 < DimensionOf A 0) → Q ≠ [] →
      0 < (Q.map (fun A => DimensionOf A 0)).sum := by
    intro Q
    induction Q with
    | nil => intro _ h; exact absurd rfl h
    | cons Head Tail ih =>
      intro hQ _
      have hHead : 0 < DimensionOf Head 0 := hQ Head (List.mem_cons_self _ _)
      have hTail : ∀ A ∈ Tail, 0 < DimensionOf A 0 :=
        fun A hA => hQ A (List.mem_cons_of_mem _ hA)
      rw [List.map_cons, List.sum_cons]
      by_cases hT : Tail = []
      · subst hT
        simpa using hHead
      · have := ih hTail hT
        omega
  refine ⟨hsum, ?_, ?_⟩
  · rw [hsum]
    rfl
  · rw [hsum]
    constructor
    · intro h
      by_contra hne
      have := hnonneg P hP hne
      unfold DYNAMIC at h
      omega
    · intro h
      subst h
      simp [DYNAMIC]

/-- C18 at `SumDimensions<Vector<float, 3, false>, float,
Vector<float, DYNAMIC, false>, Vector<float, 7, true>>`, which is 3. -/
theorem SumDimensions_short_circuit_witness :
    (∀ A ∈ [Vector float 3 false, float], 0 < DimensionOf A 0)
    ∧ DimensionOf (Vector float DYNAMIC false) 0 ≤ 0
    ∧ SumDimensions ([Vector float 3 false, float]
        ++ Vector float DYNAMIC false :: [Vector float 7 true]) = 3 := by
  have hP : ∀ A ∈ [Vector float 3 false, float], 0 < DimensionOf A 0 := by decide
  have hX : DimensionOf (Vector float DYNAMIC false) 0 ≤ 0 := by decide
  exact ⟨hP, hX,
    (SumDimensions_short_circuit _ _ [Vector float 7 true] hP hX).1.trans (by decide)⟩

/-- C19: for a signed integer `x`, `sign(x)` is 1 when `x > 0`, 0 when `x == 0`
and -1 when `x < 0`; consequently `sign(x) * |x| == x`. -/
theorem sign_spec (x : Int) :
    sign x = (if x > 0 then 1 else if x = 0 then 0 else -1)
    ∧ sign x * |x| = x := by
  unfold sign
  rcases lt_trichotomy x 0 with h | h | h
  · have h1 : ¬ x > 0 := by omega
    have h2 : ¬ x = 0 := by omega
    rw [if_neg h1, if_pos h, if_neg h1, if_neg h2, abs_of_neg h]
    constructor <;> omega
  · subst h
    decide
  · have h1 : ¬ x < 0 := by omega
    rw [if_pos h, if_neg h1, if_pos h, abs_of_pos h]
    constructor <;> omega

/-- C20: for a signed integer `x`, `sign_nonzero(x)` is never zero: it is 1
when `x >= 0` and -1 when `x < 0`; it equals `sign(x)` for every nonzero `x`
and differs from `sign(x)` at `x == 0`, and only there. -/
theorem sign_nonzero_spec (x : Int) :
    sign_nonzero x ≠ 0
    ∧ sign_nonzero x = (if x ≥ 0 then 1 else -1)
    ∧ (sign_nonzero x = sign x ↔ x ≠ 0) := by
  unfold sign_nonzero sign
  rcases lt_trichotomy x 0 with h | h | h
  · have h1 : ¬ x > 0 := by omega
    have h2 : ¬ x ≥ 0 := by omega
    rw [if_neg h2, if_pos h, if_neg h1, if_neg h2]
    refine ⟨by omega, by omega, ?_⟩
    constructor
    · intro _; omega
    · intro _; rfl
  · subst h
    decide
  · have h1 : ¬ x < 0 := by omega
    have h2 : x ≥ 0 := by omega
    rw [if_pos h2, if_neg h1, if_pos h, if_pos h2]
    refine ⟨by omega, by omega, ?_⟩
    constructor
    · intro _; omega
    · intro _; rfl

end impl

end mathter
